import Mathlib

/-!
Shallow embedding of `joystick_visualizer.py` (wengmister/transporter-rpi):
an Xbox-joystick differential-drive robot controller with an emergency-stop
interlock, direct VESC motor sends, and latency telemetry.

Axis values and duty cycles are modelled over `ℝ`; measured durations and
wall-clock instants over `ℚ`.  Wall-clock readings (`time.time()`) and the
measured stage durations are inputs to the step functions, since they come
from the environment.  A motor send that may raise is modelled by a
`SendOutcome` input (`ok duration` or `failed`).
-/

namespace JoystickVisualizer

/-- Deadzone threshold, source constant `DEADZONE = 0.15`. -/
def DEADZONE : ℝ := 0.15

/-- Maximum duty cycle, source constant `MAX_SPEED = 0.8`. -/
def MAX_SPEED : ℝ := 0.8

/-- Joystick sensitivity, source constant `SPEED_MULTIPLIER = 1.0`. -/
def SPEED_MULTIPLIER : ℝ := 1

/-- Ring-buffer capacity, source constant `LATENCY_HISTORY_SIZE = 100`. -/
def LATENCY_HISTORY_SIZE : ℕ := 100

/-- Reporting interval in seconds, source constant `LATENCY_LOG_INTERVAL = 1.0`. -/
def LATENCY_LOG_INTERVAL : ℚ := 1

/-- Per-axis deadzone of `update_joystick_state` (lines 162-165):
`if abs(raw) < DEADZONE: raw = 0.0`. -/
noncomputable def applyDeadzone (v : ℝ) : ℝ := if |v| < DEADZONE then 0 else v

/-- The per-tick joystick sample: post-deadzone axes plus derived
magnitude and angle (fields `x_axis`, `y_axis`, `magnitude`, `angle`). -/
structure StickSample where
  x : ℝ
  y : ℝ
  magnitude : ℝ
  angle : ℝ

/-- `math.atan2 y x`, embedded as the argument of the complex number `x + y*I`. -/
noncomputable def atan2 (y x : ℝ) : ℝ := Complex.arg ⟨x, y⟩

/-- The pure part of `update_joystick_state` (lines 157-177): read the two
axes, negate axis 1, snap each axis inside the deadzone to exactly 0.0,
then compute the magnitude (clamped to 1.0) and the angle. -/
noncomputable def update_joystick_state (axis0 axis1 : ℝ) : StickSample :=
  let raw_x := applyDeadzone axis0
  let raw_y := applyDeadzone (-axis1)
  let magnitude := min 1 (Real.sqrt (raw_x ^ 2 + raw_y ^ 2))
  let angle := if magnitude > 0 then atan2 raw_y raw_x else 0
  ⟨raw_x, raw_y, magnitude, angle⟩

/-- `max(-1.0, min(1.0, v))` (lines 197-198). -/
noncomputable def clamp01 (v : ℝ) : ℝ := max (-1) (min 1 v)

/-- Intermediate and final values of the differential-drive mixing step of
`calculate_and_send_motor_commands` (lines 189-202). -/
structure MixResult where
  speed : ℝ
  turn : ℝ
  leftRaw : ℝ
  rightRaw : ℝ
  leftDuty : ℝ
  rightDuty : ℝ

/-- The drive mixer (lines 189-202).  The source fixes the turn sign to `-1`
(`self.turn = -self.x_axis * SPEED_MULTIPLIER`, comment `0829:inverted`); the
spec treats the sign as a per-deployment signed configuration parameter, so it
is a parameter here and `codeTurnSign` records the source's value. -/
noncomputable def mixDrive (turnSign x y : ℝ) : MixResult :=
  let speed := y * SPEED_MULTIPLIER
  let turn := turnSign * x * SPEED_MULTIPLIER
  let left_speed := clamp01 (speed + turn)
  let right_speed := clamp01 (speed - turn)
  ⟨speed, turn, left_speed, right_speed, left_speed * MAX_SPEED, right_speed * MAX_SPEED⟩

/-- The turn sign hardcoded in the source (line 190). -/
def codeTurnSign : ℝ := -1

/-- Mutable fields of `RobotController` touched by the core control flow
(lines 59-90).  Rendering-only fields (screen, fonts, clock) are omitted. -/
structure CtrlState where
  x_axis : ℝ
  y_axis : ℝ
  magnitude : ℝ
  angle : ℝ
  speed : ℝ
  turn : ℝ
  left_motor_duty : ℝ
  right_motor_duty : ℝ
  vesc_connected : Bool
  emergency_stop : Bool
  joystick_read_times : List ℚ
  motor_command_times : List ℚ
  total_loop_times : List ℚ
  motor_update_interval : List ℚ
  last_latency_log : ℚ
  command_counter : ℕ
  last_motor_update : ℚ
  avg_joystick_time : ℚ
  avg_motor_time : ℚ
  avg_loop_time : ℚ
  avg_update_rate : ℚ
  max_motor_time : ℚ
  motor_timeouts : ℕ

/-- `__init__` (lines 59-93): everything starts at zero with empty deques;
`init_vesc` (lines 111-148) sets `vesc_connected` to `True` exactly when both
serial connections succeed and to `False` on any exception
("Running in visualization-only mode"); `connected` is that outcome, and
`clock` is the startup value of `time.time()`. -/
def initState (clock : ℚ) (connected : Bool) : CtrlState :=
  { x_axis := 0, y_axis := 0, magnitude := 0, angle := 0, speed := 0, turn := 0
    left_motor_duty := 0, right_motor_duty := 0
    vesc_connected := connected, emergency_stop := false
    joystick_read_times := [], motor_command_times := [], total_loop_times := []
    motor_update_interval := [], last_latency_log := clock, command_counter := 0
    last_motor_update := clock, avg_joystick_time := 0, avg_motor_time := 0
    avg_loop_time := 0, avg_update_rate := 0, max_motor_time := 0, motor_timeouts := 0 }

/-- `deque(maxlen=LATENCY_HISTORY_SIZE).append`: append on the right and,
past capacity, evict from the left. -/
def pushDeque (w : List ℚ) (v : ℚ) : List ℚ :=
  let w2 := w ++ [v]
  if LATENCY_HISTORY_SIZE < w2.length then w2.drop (w2.length - LATENCY_HISTORY_SIZE) else w2

/-- Console events emitted by `calculate_and_send_motor_commands`:
the slow-command warning (line 233), the critical warning (line 236) and
the caught motor-control error (line 240). -/
inductive LogEvent where
  | slowWarning (duration : ℚ)
  | criticalWarning (duration : ℚ)
  | motorError
deriving DecidableEq

/-- Outcome of the `try` block around the duty-cycle sends: either the sends
return and the block took `duration` seconds, or some call raised. -/
inductive SendOutcome where
  | ok (duration : ℚ)
  | failed
deriving DecidableEq

/-- Result of one call of `calculate_and_send_motor_commands`: the updated
state, the duty pair delivered to the (left, right) motor endpoints (if any),
and the console events emitted. -/
structure SendReport where
  state : CtrlState
  sent : Option (ℝ × ℝ)
  events : List LogEvent

/-- `calculate_and_send_motor_commands` (lines 186-241): mix the current stick
axes into duty cycles, then — only if the VESC link is connected — send either
(0, 0) under emergency stop or the mixed duties, and update the latency
bookkeeping; a raised send is caught and counted.  `now` is the value of
`time.time()` after the send (line 223). -/
noncomputable def calculate_and_send_motor_commands (turnSign : ℝ) (s : CtrlState)
    (outcome : SendOutcome) (now : ℚ) : SendReport :=
  let m := mixDrive turnSign s.x_axis s.y_axis
  let s1 := { s with speed := m.speed, turn := m.turn,
                     left_motor_duty := m.leftDuty, right_motor_duty := m.rightDuty }
  if s1.vesc_connected then
    match outcome with
    | .failed => ⟨{ s1 with motor_timeouts := s1.motor_timeouts + 1 }, none, [.motorError]⟩
    | .ok d =>
      let pair : ℝ × ℝ := if s1.emergency_stop then (0, 0) else (m.leftDuty, m.rightDuty)
      let s2 := { s1 with
        motor_command_times := pushDeque s1.motor_command_times d
        max_motor_time := max s1.max_motor_time d
        motor_update_interval := pushDeque s1.motor_update_interval (now - s1.last_motor_update)
        last_motor_update := now
        command_counter := s1.command_counter + 1 }
      let evs := (if (0.05 : ℚ) < d then [LogEvent.slowWarning d] else []) ++
                 (if (0.1 : ℚ) < d then [LogEvent.criticalWarning d] else [])
      let s3 := if (0.1 : ℚ) < d then { s2 with motor_timeouts := s2.motor_timeouts + 1 } else s2
      ⟨s3, some pair, evs⟩
  else ⟨s1, none, []⟩

/-- `update_joystick_state` as a state transformer (lines 150-184): store the
new stick sample, record the read duration `joyDur`, then fall through into
`calculate_and_send_motor_commands`. -/
noncomputable def update_joystick_state_step (turnSign : ℝ) (s : CtrlState)
    (axis0 axis1 : ℝ) (joyDur : ℚ) (outcome : SendOutcome) (now : ℚ) : SendReport :=
  let smp := update_joystick_state axis0 axis1
  let s1 := { s with x_axis := smp.x, y_axis := smp.y,
                     magnitude := smp.magnitude, angle := smp.angle,
                     joystick_read_times := pushDeque s.joystick_read_times joyDur }
  calculate_and_send_motor_commands turnSign s1 outcome now

/-- `handle_buttons` (lines 243-268): B engages the emergency stop (and, when
connected, immediately attempts a zero-duty send to both motors, any raise
swallowed by `except: pass`); A releases it.  Returns the new state and the
zero pairs whose send was attempted. -/
def handle_buttons (s : CtrlState) (buttonB buttonA : Bool) : CtrlState × List (ℝ × ℝ) :=
  let p := if buttonB && !s.emergency_stop then
             ({ s with emergency_stop := true },
              if s.vesc_connected then [((0 : ℝ), (0 : ℝ))] else [])
           else (s, [])
  let s2 := if buttonA && p.1.emergency_stop then { p.1 with emergency_stop := false } else p.1
  (s2, p.2)

/-- `statistics.mean` of a list of rationals (only applied to nonempty lists,
as in the source, where each use is guarded by a truthiness check). -/
def listMean (w : List ℚ) : ℚ := w.sum / w.length

/-- Python's `max` over a (nonempty) list. -/
def listMax (w : List ℚ) : ℚ :=
  match w with
  | [] => 0
  | h :: t => t.foldl max h

/-- One periodic latency report (the block printed at lines 303-312).
`timeoutsLine` is `some n` exactly when the `Motor timeouts` line is printed
(only when the counter is positive). -/
structure LatencyReport where
  commands : ℕ
  avgJoystick : ℚ
  maxJoystick : ℚ
  avgMotor : ℚ
  maxMotor : ℚ
  avgLoop : ℚ
  maxLoop : ℚ
  avgFps : ℚ
  updateRate : ℚ
  timeoutsLine : Option ℕ

/-- `log_latency_stats` (lines 270-314): when at least `LATENCY_LOG_INTERVAL`
seconds have passed since the last report, recompute the display averages from
the current (unreset) ring buffers and emit a report; otherwise do nothing.
All statistics are in milliseconds as printed. -/
def log_latency_stats (s : CtrlState) (now : ℚ) : CtrlState × Option LatencyReport :=
  if LATENCY_LOG_INTERVAL ≤ now - s.last_latency_log then
    let avgJoy := if s.joystick_read_times ≠ [] then listMean s.joystick_read_times * 1000 else 0
    let maxJoy := if s.joystick_read_times ≠ [] then listMax s.joystick_read_times * 1000 else 0
    let avgMotor := if s.motor_command_times ≠ [] then listMean s.motor_command_times * 1000 else 0
    let maxMotor := if s.motor_command_times ≠ [] then listMax s.motor_command_times * 1000 else 0
    let avgLoop := if s.total_loop_times ≠ [] then listMean s.total_loop_times * 1000 else 0
    let maxLoop := if s.total_loop_times ≠ [] then listMax s.total_loop_times * 1000 else 0
    let avgFps := if s.total_loop_times ≠ [] ∧ 0 < avgLoop then 1000 / avgLoop else 0
    let updRate := if s.motor_update_interval ≠ [] then 1 / listMean s.motor_update_interval else 0
    let rep : LatencyReport :=
      ⟨s.command_counter, avgJoy, maxJoy, avgMotor, maxMotor, avgLoop, maxLoop, avgFps, updRate,
       if 0 < s.motor_timeouts then some s.motor_timeouts else none⟩
    ({ s with avg_joystick_time := avgJoy, avg_motor_time := avgMotor,
              avg_loop_time := avgLoop, avg_update_rate := updRate,
              last_latency_log := now }, some rep)
  else (s, none)

/-- The on-screen maximum-delay warning condition of `draw_latency_display`
(line 435): `if self.max_motor_time > 100`.  It reads the session-lifetime
maximum `max_motor_time`, not the rolling window. -/
def max_delay_warning (s : CtrlState) : Bool := decide (100 < s.max_motor_time)

/-- Environment inputs consumed by one iteration of the main loop `run`
(lines 540-580): the two raw axis readings, the measured joystick-read
duration, the send outcome with the clock reading after the send, the two
button states, the clock reading at the report check, and the measured total
loop duration. -/
structure TickInput where
  axis0 : ℝ
  axis1 : ℝ
  joyDur : ℚ
  outcome : SendOutcome
  nowSend : ℚ
  buttonB : Bool
  buttonA : Bool
  nowLog : ℚ
  loopDur : ℚ

/-- Result of one main-loop iteration. -/
structure TickResult where
  state : CtrlState
  sent : List (ℝ × ℝ)
  events : List LogEvent
  report : Option LatencyReport

/-- One iteration of the core of the main loop (lines 540-580):
`update_joystick_state` (which mixes and sends), `handle_buttons`,
`log_latency_stats`, and the total-loop-time push.  Rendering is omitted: it
only reads state. -/
noncomputable def tick (turnSign : ℝ) (s : CtrlState) (i : TickInput) : TickResult :=
  let r1 := update_joystick_state_step turnSign s i.axis0 i.axis1 i.joyDur i.outcome i.nowSend
  let p2 := handle_buttons r1.state i.buttonB i.buttonA
  let p3 := log_latency_stats p2.1 i.nowLog
  let s4 := { p3.1 with total_loop_times := pushDeque p3.1.total_loop_times i.loopDur }
  ⟨s4, r1.sent.toList ++ p2.2, r1.events, p3.2⟩

/-- A whole session: iterate `tick` over a list of per-iteration environment
inputs, collecting every duty pair delivered to the motor endpoints. -/
noncomputable def runSession (turnSign : ℝ) (s : CtrlState) :
    List TickInput → CtrlState × List (ℝ × ℝ)
  | [] => (s, [])
  | i :: rest =>
    let r := tick turnSign s i
    let rec2 := runSession turnSign r.state rest
    (rec2.1, r.sent ++ rec2.2)

/-- The duration recorded by a tick's send, if any: only a completed send on
a connected link appends to `motor_command_times` / updates `max_motor_time`. -/
def okDuration (i : TickInput) : Option ℚ :=
  match i.outcome with
  | .ok d => some d
  | .failed => none

/-- All send durations recorded during a session: every completed send's
duration when the link is connected, nothing when it is disconnected. -/
def sessionDurations (s : CtrlState) (inputs : List TickInput) : List ℚ :=
  if s.vesc_connected then inputs.filterMap okDuration else []

/-- The last `n` elements of a list. -/
def lastN (n : ℕ) (l : List ℚ) : List ℚ := l.drop (l.length - n)

/-! ## Theorems -/

/-- The clamp of lines 197-198 lands in `[-1, 1]`. -/
theorem abs_clamp01_le_one (v : ℝ) : |clamp01 v| ≤ 1 := by
  unfold clamp01
  refine abs_le.mpr ⟨le_max_left _ _, max_le (by norm_num) (min_le_left _ _)⟩

/-- C2: with sensitivity 1, turn sign +1 and max speed 0.8, the raw input
(x = 0.5, y = 0.5) mixes to speed 0.5 and turn 0.5, so the left raw sum
saturates at 1.0 and scales to duty 0.8, while the right raw difference is
0.0 and scales to duty 0.0. -/
theorem mixer_scenario_half_half :
    (mixDrive 1 0.5 0.5).speed = 0.5 ∧ (mixDrive 1 0.5 0.5).turn = 0.5 ∧
    (mixDrive 1 0.5 0.5).leftRaw = 1 ∧ (mixDrive 1 0.5 0.5).leftDuty = MAX_SPEED ∧
    (mixDrive 1 0.5 0.5).rightRaw = 0 ∧ (mixDrive 1 0.5 0.5).rightDuty = 0 := by
  unfold mixDrive clamp01 SPEED_MULTIPLIER MAX_SPEED
  norm_num

/-- C3: for every stick input (any x, y, and any configured turn sign), each
raw sum/difference is clamped to `[-1, 1]` independently, so both duty
outputs stay within the `MAX_SPEED` safety ceiling in absolute value. -/
theorem duty_within_max_speed (turnSign x y : ℝ) :
    |(mixDrive turnSign x y).leftRaw| ≤ 1 ∧ |(mixDrive turnSign x y).rightRaw| ≤ 1 ∧
    |(mixDrive turnSign x y).leftDuty| ≤ MAX_SPEED ∧
    |(mixDrive turnSign x y).rightDuty| ≤ MAX_SPEED := by
  have hl := abs_clamp01_le_one (y * SPEED_MULTIPLIER + turnSign * x * SPEED_MULTIPLIER)
  have hr := abs_clamp01_le_one (y * SPEED_MULTIPLIER - turnSign * x * SPEED_MULTIPLIER)
  have hms : (0 : ℝ) ≤ MAX_SPEED := by norm_num [MAX_SPEED]
  refine ⟨hl, hr, ?_, ?_⟩ <;>
    simp only [mixDrive, abs_mul, abs_of_nonneg hms] <;>
    calc |clamp01 _| * MAX_SPEED ≤ 1 * MAX_SPEED := by
          exact mul_le_mul_of_nonneg_right (abs_clamp01_le_one _) hms
      _ = MAX_SPEED := one_mul _

/-- C4: the sampler snaps each axis inside the deadzone to exactly 0.0
per-axis before the magnitude/angle computation; the magnitude is
`sqrt (x² + y²)` of the snapped axes clamped to at most 1.0; when both raw
axes are inside the deadzone the sample has magnitude 0 and angle 0; and when
the snapped axes satisfy `x² + y² > 1` the magnitude is exactly 1.0. -/
theorem sampler_deadzone_and_magnitude (a0 a1 : ℝ) :
    (update_joystick_state a0 a1).x = applyDeadzone a0 ∧
    (update_joystick_state a0 a1).y = applyDeadzone (-a1) ∧
    (update_joystick_state a0 a1).magnitude =
      min 1 (Real.sqrt (applyDeadzone a0 ^ 2 + applyDeadzone (-a1) ^ 2)) ∧
    (|a0| < DEADZONE → |a1| < DEADZONE →
      (update_joystick_state a0 a1).magnitude = 0 ∧
      (update_joystick_state a0 a1).angle = 0) ∧
    (1 < applyDeadzone a0 ^ 2 + applyDeadzone (-a1) ^ 2 →
      (update_joystick_state a0 a1).magnitude = 1) := by
  refine ⟨rfl, rfl, rfl, ?_, ?_⟩
  · intro h0 h1
    have hx : applyDeadzone a0 = 0 := by simp [applyDeadzone, h0]
    have hy : applyDeadzone (-a1) = 0 := by simp [applyDeadzone, abs_neg, h1]
    have hmag : (update_joystick_state a0 a1).magnitude = 0 := by
      simp [update_joystick_state, hx, hy]
    refine ⟨hmag, ?_⟩
    simp only [update_joystick_state, hx, hy]
    norm_num
  · intro hgt
    have hs : (1 : ℝ) < Real.sqrt (applyDeadzone a0 ^ 2 + applyDeadzone (-a1) ^ 2) := by
      have h0 : (0 : ℝ) ≤ applyDeadzone a0 ^ 2 + applyDeadzone (-a1) ^ 2 := by positivity
      exact (Real.lt_sqrt (by norm_num)).mpr (by simpa using hgt)
    simp only [update_joystick_state]
    exact min_eq_left hs.le

/-- C9: the sampler negates the hardware's second axis before the deadzone is
applied (`raw_y = -self.joystick.get_axis(1)`, line 159), so the sample's y is
minus the raw axis-1 value modulo deadzone snapping, while the first axis is
used unnegated. -/
theorem second_axis_negated (a0 a1 : ℝ) :
    (update_joystick_state a0 a1).x = applyDeadzone a0 ∧
    (update_joystick_state a0 a1).y = applyDeadzone (-a1) ∧
    (update_joystick_state a0 a1).y = -applyDeadzone a1 ∧
    (DEADZONE ≤ |a1| → (update_joystick_state a0 a1).y = -a1) ∧
    (DEADZONE ≤ |a0| → (update_joystick_state a0 a1).x = a0) := by
  have hneg : applyDeadzone (-a1) = -applyDeadzone a1 := by
    by_cases h : |a1| < DEADZONE <;> simp [applyDeadzone, abs_neg, h]
  refine ⟨rfl, rfl, hneg, ?_, ?_⟩
  · intro h
    have : applyDeadzone a1 = a1 := by simp [applyDeadzone, not_lt.mpr h]
    calc (update_joystick_state a0 a1).y = -applyDeadzone a1 := hneg
      _ = -a1 := by rw [this]
  · intro h
    show applyDeadzone a0 = a0
    simp [applyDeadzone, not_lt.mpr h]

/-- Witness for C4 at the concrete raw pair (0.05, 0.05): both axes are
inside the deadzone, so the sample's magnitude and angle are 0. -/
theorem sampler_deadzone_and_magnitude_witness :
    |(0.05 : ℝ)| < DEADZONE ∧
    (update_joystick_state 0.05 0.05).magnitude = 0 ∧
    (update_joystick_state 0.05 0.05).angle = 0 :=
  ⟨by norm_num [DEADZONE, abs_lt],
   (sampler_deadzone_and_magnitude 0.05 0.05).2.2.2.1
     (by norm_num [DEADZONE, abs_lt]) (by norm_num [DEADZONE, abs_lt])⟩

/-- Witness for C9 at the concrete raw pair (1, 1): both axes are outside the
deadzone, the sample's y is -1 and its x is 1. -/
theorem second_axis_negated_witness :
    DEADZONE ≤ |(1 : ℝ)| ∧
    (update_joystick_state 1 1).y = -1 ∧ (update_joystick_state 1 1).x = 1 :=
  ⟨by norm_num [DEADZONE],
   (second_axis_negated 1 1).2.2.2.1 (by norm_num [DEADZONE]),
   (second_axis_negated 1 1).2.2.2.2 (by norm_num [DEADZONE])⟩

/-- Under emergency stop with the link connected, the delivered pair is
(0, 0) (lines 209-211). -/
theorem calc_sent_of_stopped (turnSign : ℝ) (s : CtrlState) (d now : ℚ)
    (hstop : s.emergency_stop = true) (hconn : s.vesc_connected = true) :
    (calculate_and_send_motor_commands turnSign s (.ok d) now).sent = some (0, 0) := by
  simp [calculate_and_send_motor_commands, hstop, hconn]

/-- The mixing step of `calculate_and_send_motor_commands` is always executed:
whatever the connection, stop and send outcome, the stored speed, turn and
duty fields are the mixer's outputs for the current stick axes. -/
theorem calc_mixes_always (turnSign : ℝ) (s : CtrlState) (outcome : SendOutcome) (now : ℚ) :
    (calculate_and_send_motor_commands turnSign s outcome now).state.speed =
      (mixDrive turnSign s.x_axis s.y_axis).speed ∧
    (calculate_and_send_motor_commands turnSign s outcome now).state.turn =
      (mixDrive turnSign s.x_axis s.y_axis).turn ∧
    (calculate_and_send_motor_commands turnSign s outcome now).state.left_motor_duty =
      (mixDrive turnSign s.x_axis s.y_axis).leftDuty ∧
    (calculate_and_send_motor_commands turnSign s outcome now).state.right_motor_duty =
      (mixDrive turnSign s.x_axis s.y_axis).rightDuty := by
  cases outcome with
  | ok d =>
    by_cases hc : s.vesc_connected = true
    · by_cases hd : (0.1 : ℚ) < d <;>
        simp [calculate_and_send_motor_commands, hc, hd]
    · simp [calculate_and_send_motor_commands, hc]
  | failed =>
    by_cases hc : s.vesc_connected = true <;>
      simp [calculate_and_send_motor_commands, hc]

/-- C1: while the interlock is Stopped and the motor link is connected, any
completed send delivers exactly (0.0, 0.0) to the two motor endpoints, yet
the drive mixer's outputs for the current stick sample are still computed and
stored (overridden, never skipped). -/
theorem stopped_overrides_but_still_mixes (turnSign : ℝ) (s : CtrlState) (d now : ℚ)
    (hstop : s.emergency_stop = true) (hconn : s.vesc_connected = true) :
    (calculate_and_send_motor_commands turnSign s (.ok d) now).sent = some (0, 0) ∧
    (calculate_and_send_motor_commands turnSign s (.ok d) now).state.left_motor_duty =
      (mixDrive turnSign s.x_axis s.y_axis).leftDuty ∧
    (calculate_and_send_motor_commands turnSign s (.ok d) now).state.right_motor_duty =
      (mixDrive turnSign s.x_axis s.y_axis).rightDuty ∧
    (calculate_and_send_motor_commands turnSign s (.ok d) now).state.speed =
      (mixDrive turnSign s.x_axis s.y_axis).speed ∧
    (calculate_and_send_motor_commands turnSign s (.ok d) now).state.turn =
      (mixDrive turnSign s.x_axis s.y_axis).turn :=
  ⟨calc_sent_of_stopped turnSign s d now hstop hconn,
   (calc_mixes_always turnSign s (.ok d) now).2.2.1,
   (calc_mixes_always turnSign s (.ok d) now).2.2.2,
   (calc_mixes_always turnSign s (.ok d) now).1,
   (calc_mixes_always turnSign s (.ok d) now).2.1⟩

/-- Witness for C1: a connected, stopped state with the stick pushed to
(1, 1) still delivers (0, 0). -/
theorem stopped_overrides_but_still_mixes_witness :
    (calculate_and_send_motor_commands codeTurnSign
      { initState 0 true with emergency_stop := true, x_axis := 1, y_axis := 1 }
      (.ok 0.01) 0).sent = some (0, 0) :=
  (stopped_overrides_but_still_mixes codeTurnSign
    { initState 0 true with emergency_stop := true, x_axis := 1, y_axis := 1 }
    0.01 0 rfl rfl).1

/-- C6: a raised motor send is caught at the adapter boundary (lines 239-241):
the error is logged, the timeout/error counter is incremented, the interlock
state is untouched, and the step — hence the control loop — returns normally;
the next loop iteration proceeds from the resulting state. -/
theorem send_failure_contained (turnSign : ℝ) (s : CtrlState) (now : ℚ)
    (hconn : s.vesc_connected = true) :
    (calculate_and_send_motor_commands turnSign s .failed now).state.motor_timeouts =
      s.motor_timeouts + 1 ∧
    (calculate_and_send_motor_commands turnSign s .failed now).events = [.motorError] ∧
    (calculate_and_send_motor_commands turnSign s .failed now).state.emergency_stop =
      s.emergency_stop ∧
    (calculate_and_send_motor_commands turnSign s .failed now).state.vesc_connected = true ∧
    (calculate_and_send_motor_commands turnSign s .failed now).sent = none ∧
    (∀ (i : TickInput) (rest : List TickInput), i.outcome = .failed →
      (runSession turnSign s (i :: rest)).1 =
        (runSession turnSign (tick turnSign s i).state rest).1) := by
  refine ⟨?_, ?_, ?_, ?_, ?_, ?_⟩
  · simp [calculate_and_send_motor_commands, hconn]
  · simp [calculate_and_send_motor_commands, hconn]
  · simp [calculate_and_send_motor_commands, hconn]
  · simp [calculate_and_send_motor_commands, hconn]
  · simp [calculate_and_send_motor_commands, hconn]
  · intro i rest _
    rfl

/-- Witness for C6: a failed send on the fresh connected state yields one
counted timeout, the logged error, and an unchanged (armed) interlock. -/
theorem send_failure_contained_witness :
    (calculate_and_send_motor_commands codeTurnSign (initState 0 true) .failed 0).state.motor_timeouts = 0 + 1 ∧
    (calculate_and_send_motor_commands codeTurnSign (initState 0 true) .failed 0).events = [.motorError] ∧
    (calculate_and_send_motor_commands codeTurnSign (initState 0 true) .failed 0).state.emergency_stop = false :=
  ⟨(send_failure_contained codeTurnSign (initState 0 true) 0 rfl).1,
   (send_failure_contained codeTurnSign (initState 0 true) 0 rfl).2.1,
   (send_failure_contained codeTurnSign (initState 0 true) 0 rfl).2.2.1⟩

/-- C8: the stop transition of `handle_buttons` (lines 248-262) is
idempotent: pressing B again while already Stopped changes nothing and
attempts no further send from the handler itself — while Stopped, each tick's
command path re-sends the same forced (0, 0). -/
theorem stop_transition_idempotent (turnSign : ℝ) (s : CtrlState) (d now : ℚ) :
    (handle_buttons (handle_buttons s true false).1 true false).1 =
      (handle_buttons s true false).1 ∧
    (handle_buttons s true false).1.emergency_stop = true ∧
    (handle_buttons (handle_buttons s true false).1 true false).2 = [] ∧
    (handle_buttons s true false).2 =
      (if s.emergency_stop then [] else if s.vesc_connected then [((0 : ℝ), (0 : ℝ))] else []) ∧
    (s.vesc_connected = true →
      (calculate_and_send_motor_commands turnSign (handle_buttons s true false).1
        (.ok d) now).sent = some (0, 0) ∧
      (calculate_and_send_motor_commands turnSign
        (handle_buttons (handle_buttons s true false).1 true false).1
        (.ok d) now).sent = some (0, 0)) := by
  have hstop1 : (handle_buttons s true false).1.emergency_stop = true := by
    by_cases h : s.emergency_stop = true <;> simp [handle_buttons, h]
  have hconn1 : (handle_buttons s true false).1.vesc_connected = s.vesc_connected := by
    by_cases h : s.emergency_stop = true <;> simp [handle_buttons, h]
  have hidem : handle_buttons (handle_buttons s true false).1 true false =
      ((handle_buttons s true false).1, []) := by
    by_cases h : s.emergency_stop = true <;> simp [handle_buttons, h]
  refine ⟨by rw [hidem], hstop1, by rw [hidem], ?_, ?_⟩
  · by_cases h : s.emergency_stop = true <;> simp [handle_buttons, h]
  · intro hc
    refine ⟨calc_sent_of_stopped turnSign _ d now hstop1 (hconn1.trans hc), ?_⟩
    rw [hidem]
    exact calc_sent_of_stopped turnSign _ d now hstop1 (hconn1.trans hc)

/-- Witness for C8: from the fresh connected (armed) state, pressing stop
once and twice gives the same stopped state, and the tick command path then
delivers (0, 0). -/
theorem stop_transition_idempotent_witness :
    (initState 0 true).vesc_connected = true ∧
    (handle_buttons (handle_buttons (initState 0 true) true false).1 true false).1 =
      (handle_buttons (initState 0 true) true false).1 ∧
    (handle_buttons (initState 0 true) true false).1.emergency_stop = true ∧
    (calculate_and_send_motor_commands codeTurnSign
      (handle_buttons (initState 0 true) true false).1 (.ok 0.01) 0).sent = some (0, 0) :=
  ⟨rfl,
   (stop_transition_idempotent codeTurnSign (initState 0 true) 0.01 0).1,
   (stop_transition_idempotent codeTurnSign (initState 0 true) 0.01 0).2.1,
   ((stop_transition_idempotent codeTurnSign (initState 0 true) 0.01 0).2.2.2.2 rfl).1⟩

set_option maxRecDepth 4000

/-- C5 (amended): every completed send slower than 50 ms emits the
warning-level event; every send slower than 100 ms additionally emits the
critical-level event and increments the timeout/error counter, which is then
printed in the next periodic report; a send at or below 100 ms leaves the
timeout counter untouched (the slow warning is an event only — no counter
records it), while the unconditional command counter increments on every
completed send. -/
theorem latency_threshold_events (turnSign : ℝ) (s : CtrlState) (d now now2 : ℚ)
    (hconn : s.vesc_connected = true) :
    ((0.05 : ℚ) < d → LogEvent.slowWarning d ∈
      (calculate_and_send_motor_commands turnSign s (.ok d) now).events) ∧
    ((0.1 : ℚ) < d → LogEvent.criticalWarning d ∈
      (calculate_and_send_motor_commands turnSign s (.ok d) now).events ∧
      (calculate_and_send_motor_commands turnSign s (.ok d) now).state.motor_timeouts =
        s.motor_timeouts + 1) ∧
    (¬ (0.1 : ℚ) < d →
      (calculate_and_send_motor_commands turnSign s (.ok d) now).state.motor_timeouts =
        s.motor_timeouts) ∧
    (calculate_and_send_motor_commands turnSign s (.ok d) now).state.command_counter =
      s.command_counter + 1 ∧
    ((0.1 : ℚ) < d →
      LATENCY_LOG_INTERVAL ≤ now2 -
        (calculate_and_send_motor_commands turnSign s (.ok d) now).state.last_latency_log →
      ((log_latency_stats
          (calculate_and_send_motor_commands turnSign s (.ok d) now).state now2).2).map
        LatencyReport.timeoutsLine = some (some (s.motor_timeouts + 1))) := by
  refine ⟨?_, ?_, ?_, ?_, ?_⟩
  · intro h5
    by_cases h1 : (0.1 : ℚ) < d <;>
      simp [calculate_and_send_motor_commands, hconn, h5, h1]
  · intro h1
    have h5 : (0.05 : ℚ) < d := lt_trans (by norm_num) h1
    constructor <;> simp [calculate_and_send_motor_commands, hconn, h5, h1]
  · intro h1
    simp [calculate_and_send_motor_commands, hconn, h1]
  · by_cases h1 : (0.1 : ℚ) < d <;>
      simp [calculate_and_send_motor_commands, hconn, h1]
  · intro h1 hlog
    have ht : (calculate_and_send_motor_commands turnSign s (.ok d) now).state.motor_timeouts =
        s.motor_timeouts + 1 := by
      simp [calculate_and_send_motor_commands, hconn, h1]
    simp [log_latency_stats, hlog, ht]

/-- C5 counterexample: in the program there is no slow-warning counter.  A
120 ms send increments only the single timeout/error counter (to 1); a 60 ms
send — which does emit the slow warning event — leaves every counter equal to
what a 10 ms send produces, and the next periodic report after it prints no
warning counter line at all. -/
theorem no_slow_warning_counter :
    (calculate_and_send_motor_commands codeTurnSign (initState 0 true)
      (.ok 0.12) 0).state.motor_timeouts = 1 ∧
    LogEvent.slowWarning 0.12 ∈
      (calculate_and_send_motor_commands codeTurnSign (initState 0 true) (.ok 0.12) 0).events ∧
    LogEvent.criticalWarning 0.12 ∈
      (calculate_and_send_motor_commands codeTurnSign (initState 0 true) (.ok 0.12) 0).events ∧
    LogEvent.slowWarning 0.06 ∈
      (calculate_and_send_motor_commands codeTurnSign (initState 0 true) (.ok 0.06) 0).events ∧
    (calculate_and_send_motor_commands codeTurnSign (initState 0 true)
        (.ok 0.06) 0).state.motor_timeouts =
      (calculate_and_send_motor_commands codeTurnSign (initState 0 true)
        (.ok 0.01) 0).state.motor_timeouts ∧
    (calculate_and_send_motor_commands codeTurnSign (initState 0 true)
        (.ok 0.06) 0).state.command_counter =
      (calculate_and_send_motor_commands codeTurnSign (initState 0 true)
        (.ok 0.01) 0).state.command_counter ∧
    ((log_latency_stats (calculate_and_send_motor_commands codeTurnSign (initState 0 true)
        (.ok 0.06) 0).state 5).2).map LatencyReport.timeoutsLine = some none := by
  norm_num [calculate_and_send_motor_commands, initState, log_latency_stats,
    LATENCY_LOG_INTERVAL, apply_ite]

/-- Witness for C5's amended theorem at a 120 ms send from the fresh
connected state. -/
theorem latency_threshold_events_witness :
    (0.05 : ℚ) < 0.12 ∧ (0.1 : ℚ) < 0.12 ∧
    LogEvent.slowWarning 0.12 ∈
      (calculate_and_send_motor_commands codeTurnSign (initState 0 true) (.ok 0.12) 0).events ∧
    (calculate_and_send_motor_commands codeTurnSign (initState 0 true)
      (.ok 0.12) 0).state.motor_timeouts = 0 + 1 ∧
    ((log_latency_stats (calculate_and_send_motor_commands codeTurnSign (initState 0 true)
        (.ok 0.12) 0).state 5).2).map LatencyReport.timeoutsLine = some (some (0 + 1)) :=
  ⟨by norm_num, by norm_num,
   (latency_threshold_events codeTurnSign (initState 0 true) 0.12 0 5 rfl).1 (by norm_num),
   ((latency_threshold_events codeTurnSign (initState 0 true) 0.12 0 5 rfl).2.1 (by norm_num)).2,
   (latency_threshold_events codeTurnSign (initState 0 true) 0.12 0 5 rfl).2.2.2.2
     (by norm_num)
     (by norm_num [calculate_and_send_motor_commands, initState, LATENCY_LOG_INTERVAL, apply_ite])⟩

/-- Fields of the controller state that `calculate_and_send_motor_commands`
never writes. -/
theorem calc_preserved (turnSign : ℝ) (s : CtrlState) (outcome : SendOutcome) (now : ℚ) :
    (calculate_and_send_motor_commands turnSign s outcome now).state.vesc_connected =
      s.vesc_connected ∧
    (calculate_and_send_motor_commands turnSign s outcome now).state.emergency_stop =
      s.emergency_stop ∧
    (calculate_and_send_motor_commands turnSign s outcome now).state.x_axis = s.x_axis ∧
    (calculate_and_send_motor_commands turnSign s outcome now).state.y_axis = s.y_axis ∧
    (calculate_and_send_motor_commands turnSign s outcome now).state.joystick_read_times =
      s.joystick_read_times ∧
    (calculate_and_send_motor_commands turnSign s outcome now).state.total_loop_times =
      s.total_loop_times ∧
    (calculate_and_send_motor_commands turnSign s outcome now).state.last_latency_log =
      s.last_latency_log := by
  cases outcome with
  | ok d =>
    by_cases hc : s.vesc_connected = true
    · by_cases hd : (0.1 : ℚ) < d <;> simp [calculate_and_send_motor_commands, hc, hd]
    · simp [calculate_and_send_motor_commands, hc]
  | failed =>
    by_cases hc : s.vesc_connected = true <;> simp [calculate_and_send_motor_commands, hc]

/-- On a connected link, a completed send of duration `d` records `d` in the
window and folds it into the running maximum. -/
theorem calc_stats_ok (turnSign : ℝ) (s : CtrlState) (d now : ℚ)
    (hc : s.vesc_connected = true) :
    (calculate_and_send_motor_commands turnSign s (.ok d) now).state.max_motor_time =
      max s.max_motor_time d ∧
    (calculate_and_send_motor_commands turnSign s (.ok d) now).state.motor_command_times =
      pushDeque s.motor_command_times d := by
  by_cases hd : (0.1 : ℚ) < d <;> simp [calculate_and_send_motor_commands, hc, hd]

/-- With a disconnected link or a raised send, neither the window nor the
running maximum changes. -/
theorem calc_stats_frozen (turnSign : ℝ) (s : CtrlState) (outcome : SendOutcome) (now : ℚ)
    (h : s.vesc_connected = false ∨ outcome = .failed) :
    (calculate_and_send_motor_commands turnSign s outcome now).state.max_motor_time =
      s.max_motor_time ∧
    (calculate_and_send_motor_commands turnSign s outcome now).state.motor_command_times =
      s.motor_command_times := by
  rcases h with hc | ho
  · cases outcome <;> simp [calculate_and_send_motor_commands, hc]
  · subst ho
    by_cases hc : s.vesc_connected = true <;> simp [calculate_and_send_motor_commands, hc]

/-- With a disconnected link no duty pair is delivered (the whole send block
of lines 205-241 is skipped). -/
theorem calc_sent_disconnected (turnSign : ℝ) (s : CtrlState) (outcome : SendOutcome)
    (now : ℚ) (hc : s.vesc_connected = false) :
    (calculate_and_send_motor_commands turnSign s outcome now).sent = none := by
  cases outcome <;> simp [calculate_and_send_motor_commands, hc]

/-- `handle_buttons` writes only `emergency_stop`. -/
theorem handle_buttons_fields (s : CtrlState) (bB bA : Bool) :
    (handle_buttons s bB bA).1.emergency_stop = ((s.emergency_stop || bB) && !bA) ∧
    (handle_buttons s bB bA).1.vesc_connected = s.vesc_connected ∧
    (handle_buttons s bB bA).1.x_axis = s.x_axis ∧
    (handle_buttons s bB bA).1.y_axis = s.y_axis ∧
    (handle_buttons s bB bA).1.left_motor_duty = s.left_motor_duty ∧
    (handle_buttons s bB bA).1.right_motor_duty = s.right_motor_duty ∧
    (handle_buttons s bB bA).1.joystick_read_times = s.joystick_read_times ∧
    (handle_buttons s bB bA).1.motor_command_times = s.motor_command_times ∧
    (handle_buttons s bB bA).1.total_loop_times = s.total_loop_times ∧
    (handle_buttons s bB bA).1.max_motor_time = s.max_motor_time ∧
    (handle_buttons s bB bA).1.last_latency_log = s.last_latency_log := by
  cases hE : s.emergency_stop <;> cases bB <;> cases bA <;> simp [handle_buttons, hE]

/-- A stop press attempts no send when the link is disconnected. -/
theorem handle_buttons_sent_disconnected (s : CtrlState) (bB bA : Bool)
    (hc : s.vesc_connected = false) :
    (handle_buttons s bB bA).2 = [] := by
  have hc' : ¬ (s.vesc_connected = true) := by simp [hc]
  cases hE : s.emergency_stop <;> cases bB <;> simp [handle_buttons, hE, hc']

/-- `log_latency_stats` writes only the display averages and the report
timestamp. -/
theorem log_fields (s : CtrlState) (now : ℚ) :
    (log_latency_stats s now).1.vesc_connected = s.vesc_connected ∧
    (log_latency_stats s now).1.emergency_stop = s.emergency_stop ∧
    (log_latency_stats s now).1.x_axis = s.x_axis ∧
    (log_latency_stats s now).1.y_axis = s.y_axis ∧
    (log_latency_stats s now).1.left_motor_duty = s.left_motor_duty ∧
    (log_latency_stats s now).1.right_motor_duty = s.right_motor_duty ∧
    (log_latency_stats s now).1.joystick_read_times = s.joystick_read_times ∧
    (log_latency_stats s now).1.motor_command_times = s.motor_command_times ∧
    (log_latency_stats s now).1.total_loop_times = s.total_loop_times ∧
    (log_latency_stats s now).1.max_motor_time = s.max_motor_time := by
  by_cases h : LATENCY_LOG_INTERVAL ≤ now - s.last_latency_log <;> simp [log_latency_stats, h]

/-- Per-tick field characterization: connection status is never changed, the
stick sample and the mixed duties are always recomputed, and both the
joystick-read and total-loop telemetry windows are pushed every tick. -/
theorem tick_fields (t : ℝ) (s : CtrlState) (i : TickInput) :
    (tick t s i).state.vesc_connected = s.vesc_connected ∧
    (tick t s i).state.x_axis = (update_joystick_state i.axis0 i.axis1).x ∧
    (tick t s i).state.y_axis = (update_joystick_state i.axis0 i.axis1).y ∧
    (tick t s i).state.left_motor_duty =
      (mixDrive t (update_joystick_state i.axis0 i.axis1).x
        (update_joystick_state i.axis0 i.axis1).y).leftDuty ∧
    (tick t s i).state.right_motor_duty =
      (mixDrive t (update_joystick_state i.axis0 i.axis1).x
        (update_joystick_state i.axis0 i.axis1).y).rightDuty ∧
    (tick t s i).state.joystick_read_times = pushDeque s.joystick_read_times i.joyDur ∧
    (tick t s i).state.total_loop_times = pushDeque s.total_loop_times i.loopDur := by
  simp [tick, update_joystick_state_step, log_fields, handle_buttons_fields,
    calc_preserved, calc_mixes_always]

/-- A tick whose send completes on a connected link pushes the duration into
the window and folds it into the running maximum. -/
theorem tick_stats_ok (t : ℝ) (s : CtrlState) (i : TickInput) (d : ℚ)
    (hc : s.vesc_connected = true) (ho : i.outcome = .ok d) :
    (tick t s i).state.max_motor_time = max s.max_motor_time d ∧
    (tick t s i).state.motor_command_times = pushDeque s.motor_command_times d := by
  simp [tick, update_joystick_state_step, ho, log_fields, handle_buttons_fields,
    calc_stats_ok, hc]

/-- A tick with a disconnected link or a raised send leaves the send window
and the running maximum unchanged. -/
theorem tick_stats_frozen (t : ℝ) (s : CtrlState) (i : TickInput)
    (h : s.vesc_connected = false ∨ i.outcome = .failed) :
    (tick t s i).state.max_motor_time = s.max_motor_time ∧
    (tick t s i).state.motor_command_times = s.motor_command_times := by
  rcases h with hc | ho
  · simp [tick, update_joystick_state_step, log_fields, handle_buttons_fields,
      calc_stats_frozen, hc]
  · simp [tick, update_joystick_state_step, log_fields, handle_buttons_fields,
      calc_stats_frozen, ho]

/-- With a disconnected link a tick delivers nothing to the motors. -/
theorem tick_sent_disconnected (t : ℝ) (s : CtrlState) (i : TickInput)
    (hc : s.vesc_connected = false) :
    (tick t s i).sent = [] := by
  simp [tick, update_joystick_state_step, calc_sent_disconnected,
    handle_buttons_sent_disconnected, calc_preserved, hc]

/-- Over a whole session with a disconnected link, nothing is ever sent and
the link state never changes. -/
theorem runSession_disconnected (t : ℝ) (s : CtrlState) (inputs : List TickInput)
    (hc : s.vesc_connected = false) :
    (runSession t s inputs).2 = [] ∧
    (runSession t s inputs).1.vesc_connected = false := by
  induction inputs generalizing s with
  | nil => exact ⟨rfl, hc⟩
  | cons i rest ih =>
    have hconn : (tick t s i).state.vesc_connected = false := (tick_fields t s i).1.trans hc
    have h2 := ih (tick t s i).state hconn
    simp only [runSession]
    exact ⟨by rw [tick_sent_disconnected t s i hc, h2.1]; rfl, h2.2⟩

/-- C7: if the motor-link connection fails at startup the state records
Disconnected; then every tick still samples the stick, mixes duties and
pushes telemetry, no duty pair is ever delivered during the whole session,
and the link state stays Disconnected throughout (nothing ever reconnects). -/
theorem disconnected_visualization_only (turnSign : ℝ) (clock : ℚ) (s : CtrlState)
    (inputs : List TickInput) (hc : s.vesc_connected = false) :
    (initState clock false).vesc_connected = false ∧
    (runSession turnSign s inputs).2 = [] ∧
    (runSession turnSign s inputs).1.vesc_connected = false ∧
    ∀ i : TickInput,
      (tick turnSign s i).sent = [] ∧
      (tick turnSign s i).state.x_axis = (update_joystick_state i.axis0 i.axis1).x ∧
      (tick turnSign s i).state.y_axis = (update_joystick_state i.axis0 i.axis1).y ∧
      (tick turnSign s i).state.left_motor_duty =
        (mixDrive turnSign (update_joystick_state i.axis0 i.axis1).x
          (update_joystick_state i.axis0 i.axis1).y).leftDuty ∧
      (tick turnSign s i).state.right_motor_duty =
        (mixDrive turnSign (update_joystick_state i.axis0 i.axis1).x
          (update_joystick_state i.axis0 i.axis1).y).rightDuty ∧
      (tick turnSign s i).state.joystick_read_times =
        pushDeque s.joystick_read_times i.joyDur ∧
      (tick turnSign s i).state.total_loop_times =
        pushDeque s.total_loop_times i.loopDur := by
  refine ⟨rfl, (runSession_disconnected turnSign s inputs hc).1,
    (runSession_disconnected turnSign s inputs hc).2, ?_⟩
  intro i
  exact ⟨tick_sent_disconnected turnSign s i hc, (tick_fields turnSign s i).2.1,
    (tick_fields turnSign s i).2.2.1, (tick_fields turnSign s i).2.2.2.1,
    (tick_fields turnSign s i).2.2.2.2.1, (tick_fields turnSign s i).2.2.2.2.2.1,
    (tick_fields turnSign s i).2.2.2.2.2.2⟩

/-- Witness for C7: a two-tick session from the fresh disconnected state
sends nothing and ends still disconnected. -/
theorem disconnected_visualization_only_witness :
    (initState 0 false).vesc_connected = false ∧
    (runSession codeTurnSign (initState 0 false)
      [⟨1, 1, 0.001, .ok 0.01, 0, false, false, 0, 0.016⟩,
       ⟨0.5, 0.5, 0.001, .failed, 1, true, false, 1, 0.016⟩]).2 = [] ∧
    (runSession codeTurnSign (initState 0 false)
      [⟨1, 1, 0.001, .ok 0.01, 0, false, false, 0, 0.016⟩,
       ⟨0.5, 0.5, 0.001, .failed, 1, true, false, 1, 0.016⟩]).1.vesc_connected = false :=
  ⟨(disconnected_visualization_only codeTurnSign 0 (initState 0 false)
      [⟨1, 1, 0.001, .ok 0.01, 0, false, false, 0, 0.016⟩,
       ⟨0.5, 0.5, 0.001, .failed, 1, true, false, 1, 0.016⟩] rfl).1,
   (disconnected_visualization_only codeTurnSign 0 (initState 0 false)
      [⟨1, 1, 0.001, .ok 0.01, 0, false, false, 0, 0.016⟩,
       ⟨0.5, 0.5, 0.001, .failed, 1, true, false, 1, 0.016⟩] rfl).2.1,
   (disconnected_visualization_only codeTurnSign 0 (initState 0 false)
      [⟨1, 1, 0.001, .ok 0.01, 0, false, false, 0, 0.016⟩,
       ⟨0.5, 0.5, 0.001, .failed, 1, true, false, 1, 0.016⟩] rfl).2.2.1⟩

/-- A bounded-deque push keeps exactly the last `LATENCY_HISTORY_SIZE`
elements of the appended list. -/
theorem pushDeque_eq_lastN (w : List ℚ) (v : ℚ) :
    pushDeque w v = lastN LATENCY_HISTORY_SIZE (w ++ [v]) := by
  simp only [pushDeque, lastN]
  by_cases h : LATENCY_HISTORY_SIZE < (w ++ [v]).length
  · rw [if_pos h]
  · rw [if_neg h, Nat.sub_eq_zero_of_le (not_lt.mp h), List.drop_zero]

/-- A bounded-deque never exceeds its capacity. -/
theorem pushDeque_length_le (w : List ℚ) (v : ℚ) :
    (pushDeque w v).length ≤ LATENCY_HISTORY_SIZE := by
  unfold pushDeque
  by_cases h : LATENCY_HISTORY_SIZE < (w ++ [v]).length
  · simp only [h, if_true, List.length_drop]
    omega
  · simp only [h, if_false]
    exact not_lt.mp h

/-- `lastN` is the identity on lists within the capacity. -/
theorem lastN_of_le (n : ℕ) (l : List ℚ) (h : l.length ≤ n) : lastN n l = l := by
  unfold lastN
  rw [Nat.sub_eq_zero_of_le h, List.drop_zero]

/-- Keeping the last `n` then appending and keeping the last `n` again is the
same as appending first. -/
theorem lastN_append_lastN (n : ℕ) (l l' : List ℚ) :
    lastN n (lastN n l ++ l') = lastN n (l ++ l') := by
  unfold lastN
  simp only [List.drop_append_eq_append_drop, List.drop_drop, List.length_append,
    List.length_drop]
  congr 1
  · congr 1
    omega
  · congr 1
    omega

/-- The initial value is a lower bound of a `max`-fold. -/
theorem le_foldl_max (a : ℚ) (l : List ℚ) : a ≤ l.foldl max a := by
  induction l generalizing a with
  | nil => exact le_refl a
  | cons x tl ih => exact le_trans (le_max_left a x) (ih (max a x))

/-- With a disconnected link, a whole session leaves the running maximum and
the send window untouched. -/
theorem runSession_disconnected_stats (t : ℝ) (s : CtrlState) (inputs : List TickInput)
    (hc : s.vesc_connected = false) :
    (runSession t s inputs).1.max_motor_time = s.max_motor_time ∧
    (runSession t s inputs).1.motor_command_times = s.motor_command_times := by
  induction inputs generalizing s with
  | nil => exact ⟨rfl, rfl⟩
  | cons i rest ih =>
    have hconn : (tick t s i).state.vesc_connected = false := (tick_fields t s i).1.trans hc
    have h1 := tick_stats_frozen t s i (Or.inl hc)
    have h2 := ih (tick t s i).state hconn
    simp only [runSession]
    exact ⟨h2.1.trans h1.1, h2.2.trans h1.2⟩

/-- The running maximum after a session is the `max`-fold of every recorded
send duration over the starting maximum (it is never reset). -/
theorem runSession_max_eq (t : ℝ) (s : CtrlState) (inputs : List TickInput) :
    (runSession t s inputs).1.max_motor_time =
      (sessionDurations s inputs).foldl max s.max_motor_time := by
  induction inputs generalizing s with
  | nil => cases hb : s.vesc_connected <;> simp [runSession, sessionDurations, hb]
  | cons i rest ih =>
    have step : (runSession t s (i :: rest)).1 = (runSession t (tick t s i).state rest).1 := by
      simp only [runSession]
    rw [step, ih (tick t s i).state]
    cases hb : s.vesc_connected with
    | false =>
      have hconn : (tick t s i).state.vesc_connected = false := (tick_fields t s i).1.trans hb
      have hmax := (tick_stats_frozen t s i (Or.inl hb)).1
      simp [sessionDurations, hb, hconn, hmax]
    | true =>
      have hconn : (tick t s i).state.vesc_connected = true := (tick_fields t s i).1.trans hb
      cases ho : i.outcome with
      | ok d =>
        have hmax := (tick_stats_ok t s i d hb ho).1
        simp [sessionDurations, hb, hconn, hmax, ho, okDuration, List.filterMap_cons]
      | failed =>
        have hmax := (tick_stats_frozen t s i (Or.inr ho)).1
        simp [sessionDurations, hb, hconn, hmax, ho, okDuration, List.filterMap_cons]

/-- The send window after a session holds exactly the last
`LATENCY_HISTORY_SIZE` of the starting window followed by all recorded
durations. -/
theorem runSession_window_eq (t : ℝ) (s : CtrlState) (inputs : List TickInput)
    (hlen : s.motor_command_times.length ≤ LATENCY_HISTORY_SIZE) :
    (runSession t s inputs).1.motor_command_times =
      lastN LATENCY_HISTORY_SIZE (s.motor_command_times ++ sessionDurations s inputs) := by
  induction inputs generalizing s with
  | nil =>
    cases hb : s.vesc_connected <;>
      simp [runSession, sessionDurations, hb, lastN_of_le _ _ hlen]
  | cons i rest ih =>
    have step : (runSession t s (i :: rest)).1 = (runSession t (tick t s i).state rest).1 := by
      simp only [runSession]
    rw [step]
    cases hb : s.vesc_connected with
    | false =>
      have hconn : (tick t s i).state.vesc_connected = false := (tick_fields t s i).1.trans hb
      have h2 := (runSession_disconnected_stats t (tick t s i).state rest hconn).2
      have h1 := (tick_stats_frozen t s i (Or.inl hb)).2
      rw [h2, h1]
      simp [sessionDurations, hb, lastN_of_le _ _ hlen]
    | true =>
      have hconn : (tick t s i).state.vesc_connected = true := (tick_fields t s i).1.trans hb
      cases ho : i.outcome with
      | ok d =>
        have hwin := (tick_stats_ok t s i d hb ho).2
        have hlen' : (tick t s i).state.motor_command_times.length ≤ LATENCY_HISTORY_SIZE := by
          rw [hwin]; exact pushDeque_length_le _ _
        rw [ih (tick t s i).state hlen']
        rw [show sessionDurations (tick t s i).state rest = rest.filterMap okDuration by
          simp [sessionDurations, hconn]]
        rw [hwin, pushDeque_eq_lastN, lastN_append_lastN]
        simp [sessionDurations, hb, ho, okDuration, List.filterMap_cons]
      | failed =>
        have hwin := (tick_stats_frozen t s i (Or.inr ho)).2
        have hlen' : (tick t s i).state.motor_command_times.length ≤ LATENCY_HISTORY_SIZE := by
          rw [hwin]; exact hlen
        rw [ih (tick t s i).state hlen']
        rw [show sessionDurations (tick t s i).state rest = rest.filterMap okDuration by
          simp [sessionDurations, hconn]]
        rw [hwin]
        simp [sessionDurations, hb, ho, okDuration, List.filterMap_cons]

/-- C10: `max_motor_time` is a session-lifetime running maximum — after any
session it equals the `max`-fold of every recorded send duration over the
starting value (never reset), so it can only grow as the session is extended;
the rolling window instead keeps only the most recent `LATENCY_HISTORY_SIZE`
durations; and the on-screen maximum-delay warning is computed from this
all-time maximum field, not from the window. -/
theorem max_motor_time_running_max (turnSign : ℝ) (s : CtrlState)
    (inputs inputs2 : List TickInput)
    (hlen : s.motor_command_times.length ≤ LATENCY_HISTORY_SIZE) :
    (runSession turnSign s inputs).1.max_motor_time =
      (sessionDurations s inputs).foldl max s.max_motor_time ∧
    (runSession turnSign s inputs).1.max_motor_time ≤
      (runSession turnSign s (inputs ++ inputs2)).1.max_motor_time ∧
    (runSession turnSign s inputs).1.motor_command_times =
      lastN LATENCY_HISTORY_SIZE (s.motor_command_times ++ sessionDurations s inputs) ∧
    max_delay_warning (runSession turnSign s inputs).1 =
      decide (100 < (runSession turnSign s inputs).1.max_motor_time) := by
  refine ⟨runSession_max_eq turnSign s inputs, ?_,
    runSession_window_eq turnSign s inputs hlen, rfl⟩
  rw [runSession_max_eq turnSign s inputs, runSession_max_eq turnSign s (inputs ++ inputs2)]
  have hsplit : sessionDurations s (inputs ++ inputs2) =
      sessionDurations s inputs ++ sessionDurations s inputs2 := by
    cases hb : s.vesc_connected <;> simp [sessionDurations, hb]
  rw [hsplit, List.foldl_append]
  exact le_foldl_max _ _

/-- Witness for C10: a one-tick connected session whose send took 0.2 s ends
with the running maximum equal to the fold of that single duration. -/
theorem max_motor_time_running_max_witness :
    (initState 0 true).motor_command_times.length ≤ LATENCY_HISTORY_SIZE ∧
    (runSession codeTurnSign (initState 0 true)
        [⟨1, 1, 0.001, .ok 0.2, 0, false, false, 0, 0.016⟩]).1.max_motor_time =
      (sessionDurations (initState 0 true)
        [⟨1, 1, 0.001, .ok 0.2, 0, false, false, 0, 0.016⟩]).foldl max
        (initState 0 true).max_motor_time :=
  ⟨by simp [initState, LATENCY_HISTORY_SIZE],
   (max_motor_time_running_max codeTurnSign (initState 0 true)
      [⟨1, 1, 0.001, .ok 0.2, 0, false, false, 0, 0.016⟩] []
      (by simp [initState, LATENCY_HISTORY_SIZE])).1⟩

end JoystickVisualizer
